import Mathlib

/-!
# Verification of the Showdown stats visualizer client logic

Shallow embedding of `docs/formats/formats.js` (the only non-trivial
source file): the rating-threshold resolver, the filtered projection
with percentage renormalization, the sort comparator and the sort-state
toggle machine, and the load boundary.

Modelling conventions:
* JS numbers that hold battle counts and rating thresholds are `Nat`
  (the data contract promises non-negative integers).
* JS floating-point percentages are modelled as `ℚ` (exact arithmetic;
  the spec's floating-point tolerances become exact equalities).
* A `by_rating` JSON object is an association list `List (Nat × Nat)`;
  JS property lookup `by_rating[r]` is `lookupRating`, which yields
  `none` exactly when the JS lookup yields `undefined`.
* `Object.keys(..).map(parseInt).filter(..).sort((a,b) => a-b)` is
  modelled with `List.insertionSort (· ≤ ·)`: on a consistent numeric
  comparator, any correct sort produces the same ascending list.
* `Array.prototype.sort(cmp)` on rows (a stable sort in every modern
  engine) is modelled by `List.mergeSort` with `le a b := cmp a b ≤ 0`.
-/

/-- A format record, with the fields the code reads: the rendering and
the detail view use `format_name`, the `'format-name'` sort case reads
`a.name` on its left-hand side, so both fields are modelled. -/
structure FormatRec where
  name : String
  format_name : String
  total_battles : Nat
  percentage : ℚ
  by_rating : List (Nat × Nat)
deriving Repr, DecidableEq, Inhabited

/-- The loaded snapshot (`statsData`). -/
structure StatsSnapshot where
  total_battles : Nat
  rating_thresholds : List Nat
  formats : List FormatRec
deriving Repr, DecidableEq, Inhabited

/-- JS object lookup `format.by_rating[rating]`: `none` models
`undefined`. -/
def lookupRating (m : List (Nat × Nat)) (rating : Nat) : Option Nat :=
  (m.find? (fun p => p.fst == rating)).map Prod.snd

/-- `Object.keys(format.by_rating).map(r => parseInt(r)).filter(r => r >= rating).sort((a, b) => a - b)`
(formats.js lines 92–95). -/
def availableRatings (m : List (Nat × Nat)) (rating : Nat) : List Nat :=
  List.insertionSort (· ≤ ·) ((m.map Prod.fst).filter (fun k => rating ≤ k))

/-- The battle count the filter branch computes for one format
(formats.js lines 88–102): the exact key if present, else the value at
the smallest available key ≥ `rating`, else `0`. -/
def resolveBattles (m : List (Nat × Nat)) (rating : Nat) : Nat :=
  match lookupRating m rating with
  | some battles => battles
  | none =>
    match availableRatings m rating with
    | [] => 0
    | k :: _ => (lookupRating m k).getD 0

/-- The battle count `renderTable` displays for a format under filter
`rating`: the outer guard (line 84) passes records through unchanged at
filter `0`, else the filter branch resolves via `by_rating`. -/
def resolvedCount (f : FormatRec) (rating : Nat) : Nat :=
  if rating = 0 then f.total_battles else resolveBattles f.by_rating rating

/-- The guarded percentage recomputation
`totalFiltered > 0 ? (format.total_battles / totalFiltered * 100) : 0`
(formats.js lines 115–117). -/
def recomputePercentage (battles totalFiltered : Nat) : ℚ :=
  if 0 < totalFiltered then (battles : ℚ) / (totalFiltered : ℚ) * 100 else 0

/-- The `.map` of the filter branch (formats.js lines 87–109): a copy
of each record holding its resolved count, percentage reset to `0`. -/
def mappedFormats (formats : List FormatRec) (rating : Nat) : List FormatRec :=
  formats.map (fun format =>
    { format with
        total_battles := resolveBattles format.by_rating rating,
        percentage := (0 : ℚ) })

/-- `.filter(format => format.total_battles > 0)` (formats.js line 110). -/
def survivingFormats (formats : List FormatRec) (rating : Nat) : List FormatRec :=
  (mappedFormats formats rating).filter (fun format => 0 < format.total_battles)

/-- `formats.reduce((sum, f) => sum + f.total_battles, 0)`
(formats.js line 113). -/
def totalFilteredOf (formats : List FormatRec) (rating : Nat) : Nat :=
  ((survivingFormats formats rating).map (fun f => f.total_battles)).sum

/-- The data transformation of `renderTable` before sorting
(formats.js lines 81–119): passthrough at filter `0`; otherwise map
each record to a copy holding its resolved count, drop resolved counts
of `0`, and recompute every surviving percentage against the survivors'
total. -/
def projectFormats (formats : List FormatRec) (rating : Nat) : List FormatRec :=
  if rating = 0 then formats
  else
    (survivingFormats formats rating).map (fun format =>
      { format with
          percentage :=
            recomputePercentage format.total_battles (totalFilteredOf formats rating) })

/-- The sort state `currentSort`. -/
structure SortState where
  column : String
  direction : String
deriving Repr, DecidableEq

/-- `let currentSort = { column: 'battles', direction: 'desc' }`. -/
def initialSort : SortState := { column := "battles", direction := "desc" }

/-- The column-click handler (formats.js lines 168–175): same column
flips the direction, a new column defaults to `asc` for `'name'` and
`desc` otherwise. -/
def clickColumn (current : SortState) (column : String) : SortState :=
  if current.column = column then
    { current with direction := if current.direction = "asc" then "desc" else "asc" }
  else
    { column := column, direction := if column = "name" then "asc" else "desc" }

/-- `a.localeCompare(b)` under code-point collation: negative, zero or
positive as `a` is before, equal to or after `b`. -/
def localeCompare (a b : String) : ℚ :=
  if a < b then -1 else if b < a then 1 else 0

/-- The switch of the row comparator (formats.js lines 125–135). The
`'format-name'` case compares `a.name` against `b.format_name` exactly
as the source does; an unrecognized column leaves `comparison = 0`. -/
def compareRows (column : String) (a b : FormatRec) : ℚ :=
  if column = "format-name" then localeCompare a.name b.format_name
  else if column = "percentage" then a.percentage - b.percentage
  else if column = "battles" then (a.total_battles : ℚ) - (b.total_battles : ℚ)
  else 0

/-- `currentSort.direction === 'asc' ? comparison : -comparison`
(formats.js line 137). -/
def directedCompare (column direction : String) (a b : FormatRec) : ℚ :=
  if direction = "asc" then compareRows column a b else -compareRows column a b

/-- `formats.sort((a, b) => ...)` (formats.js lines 122–138), as a
stable sort on the comparator's sign. -/
def sortRows (column direction : String) (rows : List FormatRec) : List FormatRec :=
  rows.mergeSort (fun a b => directedCompare column direction a b ≤ 0)

/-! ## Helper lemmas about `lookupRating` and `availableRatings` -/

theorem lookupRating_eq_none_iff (m : List (Nat × Nat)) (rating : Nat) :
    lookupRating m rating = none ↔ ∀ p ∈ m, p.fst ≠ rating := by
  simp [lookupRating, List.find?_eq_none]

theorem lookupRating_isSome_of_mem (m : List (Nat × Nat)) (k : Nat)
    (h : k ∈ m.map Prod.fst) : ∃ v, lookupRating m k = some v := by
  rcases List.mem_map.mp h with ⟨p, hp, hfst⟩
  have hsome : (m.find? (fun q => q.fst == k)).isSome := by
    rw [List.find?_isSome]
    exact ⟨p, hp, by simp [hfst]⟩
  rcases Option.isSome_iff_exists.mp hsome with ⟨q, hq⟩
  exact ⟨q.snd, by simp [lookupRating, hq]⟩

theorem availableRatings_eq_nil_iff (m : List (Nat × Nat)) (rating : Nat) :
    availableRatings m rating = [] ↔ ∀ k ∈ m.map Prod.fst, ¬ rating ≤ k := by
  constructor
  · intro h k hk hge
    have hperm := List.perm_insertionSort (α := Nat) (· ≤ ·)
      ((m.map Prod.fst).filter (fun k => rating ≤ k))
    rw [availableRatings] at h
    rw [h] at hperm
    have hnil := hperm.nil_eq
    have : k ∈ (m.map Prod.fst).filter (fun k => rating ≤ k) := by
      rw [List.mem_filter]
      exact ⟨hk, by simpa using hge⟩
    rw [← hnil] at this
    exact absurd this (List.not_mem_nil k)
  · intro h
    rw [availableRatings]
    have : (m.map Prod.fst).filter (fun k => rating ≤ k) = [] := by
      rw [List.filter_eq_nil_iff]
      intro k hk
      simpa using h k hk
    rw [this]
    rfl

theorem availableRatings_head_min (m : List (Nat × Nat)) (rating k : Nat) (t : List Nat)
    (h : availableRatings m rating = k :: t) :
    (k ∈ m.map Prod.fst ∧ rating ≤ k) ∧
      ∀ k' ∈ m.map Prod.fst, rating ≤ k' → k ≤ k' := by
  have hperm := List.perm_insertionSort (α := Nat) (· ≤ ·)
    ((m.map Prod.fst).filter (fun k => rating ≤ k))
  have hsorted := List.sorted_insertionSort (α := Nat) (· ≤ ·)
    ((m.map Prod.fst).filter (fun k => rating ≤ k))
  rw [availableRatings] at h
  rw [h] at hperm hsorted
  have hmemk : k ∈ (m.map Prod.fst).filter (fun k => rating ≤ k) :=
    hperm.mem_iff.mp (List.mem_cons_self k t)
  have hk := List.mem_filter.mp hmemk
  refine ⟨⟨hk.1, by simpa using hk.2⟩, ?_⟩
  intro k' hk' hge
  have hmem' : k' ∈ k :: t := by
    apply hperm.mem_iff.mpr
    rw [List.mem_filter]
    exact ⟨hk', by simpa using hge⟩
  rcases List.mem_cons.mp hmem' with heq | hmem''
  · exact le_of_eq heq.symm
  · exact (List.sorted_cons.mp hsorted).1 k' hmem''

/-! ## Concrete records used in the spec's own examples -/

/-- The `by_rating` mapping `{0:100, 1000:80, 2000:50}` of the spec's
rating-fallback example. -/
def exByRating : List (Nat × Nat) := [(0, 100), (1000, 80), (2000, 50)]

/-- A record carrying `exByRating`. -/
def exC1F : FormatRec :=
  { name := "gen9ou", format_name := "gen9ou", total_battles := 100,
    percentage := 100, by_rating := exByRating }

/-- C1: the resolved battle count is the unfiltered `total_battles` at
threshold `0`; else the exact `by_rating` value when the threshold is a
key; else the value at the smallest key ≥ the threshold when one
exists; else `0`. On `by_rating = {0:100, 1000:80, 2000:50}`,
requesting `1500` resolves to `50`, `2500` to `0` and `1000` to `80`. -/
theorem resolvedCount_contract (f : FormatRec) (rating : Nat) :
    (rating = 0 → resolvedCount f rating = f.total_battles) ∧
    (∀ v, rating ≠ 0 → lookupRating f.by_rating rating = some v →
        resolvedCount f rating = v) ∧
    (∀ k v, rating ≠ 0 → lookupRating f.by_rating rating = none →
        k ∈ f.by_rating.map Prod.fst → rating ≤ k →
        (∀ k' ∈ f.by_rating.map Prod.fst, rating ≤ k' → k ≤ k') →
        lookupRating f.by_rating k = some v →
        resolvedCount f rating = v) ∧
    (rating ≠ 0 → (∀ k ∈ f.by_rating.map Prod.fst, k < rating) →
        resolvedCount f rating = 0) ∧
    resolvedCount exC1F 1500 = 50 ∧
    resolvedCount exC1F 2500 = 0 ∧
    resolvedCount exC1F 1000 = 80 := by
  refine ⟨?_, ?_, ?_, ?_, by decide, by decide, by decide⟩
  · intro h0
    simp [resolvedCount, h0]
  · intro v hne hsome
    simp only [resolvedCount, if_neg hne]
    simp [resolveBattles, hsome]
  · intro k v hne hnone hkmem hkge hkmin hksome
    simp only [resolvedCount, if_neg hne]
    rcases hh : availableRatings f.by_rating rating with _ | ⟨k0, t⟩
    · rcases (availableRatings_eq_nil_iff f.by_rating rating).mp hh with hempty
      exact absurd hkge (hempty k hkmem)
    · rcases availableRatings_head_min f.by_rating rating k0 t hh with ⟨⟨hk0mem, hk0ge⟩, hk0min⟩
      have hle1 : k0 ≤ k := hk0min k hkmem hkge
      have hle2 : k ≤ k0 := hkmin k0 hk0mem hk0ge
      have hkk : k = k0 := le_antisymm hle2 hle1
      subst hkk
      simp [resolveBattles, hnone, hh, hksome]
  · intro hne hall
    simp only [resolvedCount, if_neg hne]
    have hnone : lookupRating f.by_rating rating = none := by
      rw [lookupRating_eq_none_iff]
      intro p hp
      exact Nat.ne_of_lt (hall p.fst (List.mem_map_of_mem Prod.fst hp))
    have hnil : availableRatings f.by_rating rating = [] := by
      rw [availableRatings_eq_nil_iff]
      intro k hk
      exact Nat.not_le_of_lt (hall k hk)
    rw [resolveBattles, hnone, hnil]

/-- Witness for C1: the exact-key case at threshold `1000` of the
example record. -/
theorem resolvedCount_contract_witness :
    (1000 ≠ 0) ∧ lookupRating exC1F.by_rating 1000 = some 80 ∧
      resolvedCount exC1F 1000 = 80 :=
  ⟨by decide, by decide,
    (resolvedCount_contract exC1F 1000).2.1 80 (by decide) (by decide)⟩

/-! ## Helper lemmas about the filtered projection -/

theorem mem_survivingFormats_pos {formats : List FormatRec} {rating : Nat} {f : FormatRec}
    (h : f ∈ survivingFormats formats rating) : 0 < f.total_battles := by
  have := List.mem_filter.mp h
  simpa using this.2

theorem totalFilteredOf_pos {formats : List FormatRec} {rating : Nat}
    (h : survivingFormats formats rating ≠ []) : 0 < totalFilteredOf formats rating := by
  apply List.sum_pos
  · intro x hx
    rcases List.mem_map.mp hx with ⟨g, hg, hgx⟩
    rw [← hgx]
    exact mem_survivingFormats_pos hg
  · simpa using h

theorem projectFormats_map_battles (formats : List FormatRec) (rating : Nat)
    (hr : rating ≠ 0) :
    (projectFormats formats rating).map (fun f => f.total_battles) =
      (survivingFormats formats rating).map (fun f => f.total_battles) := by
  simp only [projectFormats, if_neg hr, List.map_map]
  rfl

theorem projectFormats_battleSum (formats : List FormatRec) (rating : Nat)
    (hr : rating ≠ 0) :
    ((projectFormats formats rating).map (fun f => (f.total_battles : ℚ))).sum =
      (totalFilteredOf formats rating : ℚ) := by
  have h1 : (projectFormats formats rating).map (fun f => (f.total_battles : ℚ)) =
      ((projectFormats formats rating).map (fun f => f.total_battles)).map Nat.cast := by
    rw [List.map_map]
    rfl
  rw [h1, projectFormats_map_battles formats rating hr, totalFilteredOf,
    ← Nat.cast_list_sum]

/-! ## Concrete records for the renormalization example -/

/-- Format `A` of the spec's renormalization example: resolves to `30`
at threshold `1000`; its stored percentage (`5`) is deliberately
unrelated. -/
def exC2A : FormatRec :=
  { name := "A", format_name := "A", total_battles := 500,
    percentage := 5, by_rating := [(1000, 30)] }

/-- Format `B` of the spec's renormalization example: resolves to `70`
at threshold `1000`; its stored percentage (`95`) is deliberately
unrelated. -/
def exC2B : FormatRec :=
  { name := "B", format_name := "B", total_battles := 9500,
    percentage := 95, by_rating := [(1000, 70)] }

/-- C2: under a non-zero filter, each surviving format's projected
percentage is its resolved count divided by the survivors' resolved
total, times `100`; the survivors' percentages sum to `100` whenever at
least one format survives; and the concrete pair resolving to `30` and
`70` projects to percentages `30` and `70` regardless of its stored
percentages. -/
theorem projected_percentages_renormalized (formats : List FormatRec) (rating : Nat)
    (hr : rating ≠ 0) :
    (∀ f ∈ projectFormats formats rating,
        f.percentage =
          (f.total_battles : ℚ) /
            ((projectFormats formats rating).map (fun g => (g.total_battles : ℚ))).sum
            * 100) ∧
    (projectFormats formats rating ≠ [] →
        ((projectFormats formats rating).map (fun f => f.percentage)).sum = 100) ∧
    (projectFormats [exC2A, exC2B] 1000).map (fun f => f.percentage) = [30, 70] := by
  refine ⟨?_, ?_, ?_⟩
  · intro f hf
    rw [projectFormats_battleSum formats rating hr]
    simp only [projectFormats, if_neg hr, List.mem_map] at hf
    rcases hf with ⟨g, hg, hgf⟩
    have hgpos : 0 < g.total_battles := mem_survivingFormats_pos hg
    have hTpos : 0 < totalFilteredOf formats rating :=
      totalFilteredOf_pos (by intro hnil; rw [hnil] at hg; exact List.not_mem_nil g hg)
    rw [← hgf]
    simp [recomputePercentage, if_pos hTpos]
  · intro hne
    have hsne : survivingFormats formats rating ≠ [] := by
      intro hnil
      apply hne
      simp [projectFormats, if_neg hr, hnil]
    have hTpos : 0 < totalFilteredOf formats rating := totalFilteredOf_pos hsne
    have hTQ : (totalFilteredOf formats rating : ℚ) ≠ 0 := by
      exact_mod_cast Nat.pos_iff_ne_zero.mp hTpos
    have h1 : (projectFormats formats rating).map (fun f => f.percentage) =
        (survivingFormats formats rating).map
          (fun g => recomputePercentage g.total_battles (totalFilteredOf formats rating)) := by
      simp only [projectFormats, if_neg hr, List.map_map]
      rfl
    have h2 : (survivingFormats formats rating).map
        (fun g => recomputePercentage g.total_battles (totalFilteredOf formats rating)) =
        (survivingFormats formats rating).map
          (fun g => (g.total_battles : ℚ) * (100 / (totalFilteredOf formats rating : ℚ))) := by
      apply List.map_congr_left
      intro g hg
      rw [recomputePercentage, if_pos hTpos]
      field_simp
    rw [h1, h2, List.sum_map_mul_right]
    have h3 : ((survivingFormats formats rating).map (fun g => (g.total_battles : ℚ))).sum =
        (totalFilteredOf formats rating : ℚ) := by
      have : (survivingFormats formats rating).map (fun g => (g.total_battles : ℚ)) =
          ((survivingFormats formats rating).map (fun g => g.total_battles)).map Nat.cast := by
        rw [List.map_map]
        rfl
      rw [this, totalFilteredOf, ← Nat.cast_list_sum]
    rw [h3]
    field_simp
  · simp [projectFormats, survivingFormats, mappedFormats, totalFilteredOf, resolveBattles,
      lookupRating, availableRatings, exC2A, exC2B, recomputePercentage]

/-- Witness for C2: the two-format example under threshold `1000`. -/
theorem projected_percentages_renormalized_witness :
    (1000 ≠ 0) ∧
    ((∀ f ∈ projectFormats [exC2A, exC2B] 1000,
        f.percentage =
          (f.total_battles : ℚ) /
            ((projectFormats [exC2A, exC2B] 1000).map (fun g => (g.total_battles : ℚ))).sum
            * 100) ∧
      (projectFormats [exC2A, exC2B] 1000 ≠ [] →
        ((projectFormats [exC2A, exC2B] 1000).map (fun f => f.percentage)).sum = 100) ∧
      (projectFormats [exC2A, exC2B] 1000).map (fun f => f.percentage) = [30, 70]) :=
  ⟨by decide, projected_percentages_renormalized [exC2A, exC2B] 1000 (by decide)⟩

/-- C3: clicking the current column flips the direction and keeps the
column; clicking a new column selects it with default direction `asc`
for the `name` column and `desc` otherwise; and the concrete trace from
the initial state `{battles, desc}` behaves as specified. -/
theorem clickColumn_toggle (s : SortState) (c : String) :
    (c = s.column →
        (clickColumn s c).column = s.column ∧
        (s.direction = "asc" → (clickColumn s c).direction = "desc") ∧
        (s.direction = "desc" → (clickColumn s c).direction = "asc")) ∧
    (c ≠ s.column →
        (clickColumn s c).column = c ∧
        (clickColumn s c).direction = if c = "name" then "asc" else "desc") ∧
    clickColumn initialSort "name" = { column := "name", direction := "asc" } ∧
    clickColumn { column := "name", direction := "asc" } "name"
      = { column := "name", direction := "desc" } ∧
    clickColumn { column := "name", direction := "desc" } "percentage"
      = { column := "percentage", direction := "desc" } := by
  refine ⟨?_, ?_, by decide, by decide, by decide⟩
  · intro hc
    subst hc
    refine ⟨by simp [clickColumn], ?_, ?_⟩
    · intro hdir
      simp [clickColumn, hdir]
    · intro hdir
      simp [clickColumn, hdir]
  · intro hc
    have hne : s.column ≠ c := fun h => hc h.symm
    exact ⟨by simp [clickColumn, hne], by simp [clickColumn, hne]⟩

/-- Witness for C3: the first transition of the concrete trace, taken
through the general column-change case. -/
theorem clickColumn_toggle_witness :
    ("name" ≠ initialSort.column) ∧
      ((clickColumn initialSort "name").column = "name" ∧
        (clickColumn initialSort "name").direction =
          if "name" = "name" then "asc" else "desc") :=
  ⟨by decide, ((clickColumn_toggle initialSort "name").2.1 (by decide))⟩

/-! ## The `'format-name'` comparator defect (C4) -/

/-- A row whose `name` and `format_name` fields disagree: `name` sorts
last, `format_name` sorts first. -/
def exC4A : FormatRec :=
  { name := "zzz", format_name := "aaa", total_battles := 1,
    percentage := 1, by_rating := [(0, 1)] }

/-- The mirror row: `name` sorts first, `format_name` sorts last. -/
def exC4B : FormatRec :=
  { name := "aaa", format_name := "zzz", total_battles := 1,
    percentage := 1, by_rating := [(0, 1)] }

/-- C4 (evaluation of the code at the failing input): the
`'format-name'` case computes `a.name.localeCompare(b.format_name)`, so
on two rows whose `format_name` fields differ strictly it returns `0`
in both orders — the rows are never ordered by their `format_name`
fields, contradicting the claimed name-column comparison. -/
theorem compareRows_format_name_mismatch :
    compareRows "format-name" exC4A exC4B = 0 ∧
    compareRows "format-name" exC4B exC4A = 0 ∧
    exC4A.format_name ≠ exC4B.format_name ∧
    localeCompare exC4A.format_name exC4B.format_name < 0 := by
  refine ⟨?_, ?_, by decide, ?_⟩
  · simp [compareRows, localeCompare, exC4A, exC4B]
  · simp [compareRows, localeCompare, exC4B, exC4A]
  · simp only [exC4A, exC4B, localeCompare]
    norm_num
    decide

/-- C5: projecting with filter value `0` is the identity on the stored
records: every `total_battles` and `percentage` is reproduced exactly
and no format is discarded. -/
theorem unfiltered_passthrough (s : StatsSnapshot) :
    projectFormats s.formats 0 = s.formats ∧
    (projectFormats s.formats 0).map (fun f => f.total_battles) =
      s.formats.map (fun f => f.total_battles) ∧
    (projectFormats s.formats 0).map (fun f => f.percentage) =
      s.formats.map (fun f => f.percentage) ∧
    (projectFormats s.formats 0).length = s.formats.length := by
  have h : projectFormats s.formats 0 = s.formats := by simp [projectFormats]
  exact ⟨h, by rw [h], by rw [h], by rw [h]⟩

/-- A record all of whose reachable rating buckets hold `0` battles at
threshold `1000` (the fallback key `2000` itself maps to `0`). -/
def exC7 : FormatRec :=
  { name := "dead", format_name := "dead", total_battles := 100,
    percentage := 100, by_rating := [(0, 100), (2000, 0)] }

/-- C7: when every format resolves to `0` under a non-zero filter, the
projection is empty, and the guarded percentage computation returns `0`
at a zero total instead of dividing. -/
theorem zero_survivor_safety (formats : List FormatRec) (rating : Nat)
    (hr : rating ≠ 0)
    (h0 : ∀ f ∈ formats, resolveBattles f.by_rating rating = 0) :
    projectFormats formats rating = [] ∧
    ∀ battles, recomputePercentage battles 0 = 0 := by
  constructor
  · have hs : survivingFormats formats rating = [] := by
      rw [survivingFormats, List.filter_eq_nil_iff]
      intro f hf
      rcases List.mem_map.mp hf with ⟨g, hg, hgf⟩
      rw [← hgf]
      simp [h0 g hg]
    simp [projectFormats, if_neg hr, hs]
  · intro battles
    simp [recomputePercentage]

/-- Witness for C7: a one-format snapshot in which the fallback bucket
itself holds `0` battles. -/
theorem zero_survivor_safety_witness :
    ((1000 : Nat) ≠ 0) ∧ (∀ f ∈ [exC7], resolveBattles f.by_rating 1000 = 0) ∧
      (projectFormats [exC7] 1000 = [] ∧
        ∀ battles, recomputePercentage battles 0 = 0) :=
  ⟨by decide, by decide, zero_survivor_safety [exC7] 1000 (by decide) (by decide)⟩

/-! ## Rows used only to exhibit the unrecognized-key no-op (C9) -/

/-- First row of the C9 example, deliberately out of battle order. -/
def exC9A : FormatRec :=
  { name := "ubers", format_name := "ubers", total_battles := 10,
    percentage := 10, by_rating := [(0, 10)] }

/-- Second row of the C9 example. -/
def exC9B : FormatRec :=
  { name := "ou", format_name := "ou", total_battles := 90,
    percentage := 90, by_rating := [(0, 90)] }

/-- C9: a sort key outside the switch's cases — `'name'` included —
makes the comparator constantly `0`, so the stable sort returns the
rows in their original relative order for either direction. -/
theorem unrecognized_sort_key_noop (column direction : String) (rows : List FormatRec)
    (h1 : column ≠ "format-name") (h2 : column ≠ "percentage")
    (h3 : column ≠ "battles") :
    (∀ a b, compareRows column a b = 0) ∧
    sortRows column direction rows = rows := by
  have hcmp : ∀ a b, compareRows column a b = 0 := by
    intro a b
    simp [compareRows, h1, h2, h3]
  refine ⟨hcmp, ?_⟩
  rw [sortRows]
  apply List.mergeSort_of_sorted
  apply List.pairwise_of_forall
  intro a b
  simp [directedCompare, hcmp]

/-- Witness for C9: the literal key `'name'` (the toggle default's key,
absent from the switch) leaves two battle-unordered rows untouched. -/
theorem unrecognized_sort_key_noop_witness :
    ("name" ≠ "format-name" ∧ "name" ≠ "percentage" ∧ "name" ≠ "battles") ∧
      ((∀ a b, compareRows "name" a b = 0) ∧
        sortRows "name" "desc" [exC9A, exC9B] = [exC9A, exC9B]) :=
  ⟨⟨by decide, by decide, by decide⟩,
    unrecognized_sort_key_noop "name" "desc" [exC9A, exC9B]
      (by decide) (by decide) (by decide)⟩

/-- A record whose `by_rating` holds the requested key `1000` with
value `0` while the larger key `2000` holds a positive count. -/
def exC10 : FormatRec :=
  { name := "gen9uu", format_name := "gen9uu", total_battles := 100,
    percentage := 100, by_rating := [(0, 100), (1000, 0), (2000, 50)] }

/-- C10: an exact `by_rating` key with value `0` resolves to `0` — the
closest-higher fallback is never consulted for a present key — and such
a format is discarded from the filtered projection. -/
theorem zero_value_key_no_fallback (f : FormatRec) (rating : Nat)
    (hr : rating ≠ 0) (hz : lookupRating f.by_rating rating = some 0) :
    resolveBattles f.by_rating rating = 0 ∧
    projectFormats [f] rating = [] ∧
    ∀ formats : List FormatRec,
      projectFormats (f :: formats) rating = projectFormats formats rating := by
  have hres : resolveBattles f.by_rating rating = 0 := by
    simp [resolveBattles, hz]
  have hsurv : ∀ formats : List FormatRec,
      survivingFormats (f :: formats) rating = survivingFormats formats rating := by
    intro formats
    simp [survivingFormats, mappedFormats, hres]
  refine ⟨hres, ?_, ?_⟩
  · have h1 := hsurv []
    have h2 : survivingFormats ([] : List FormatRec) rating = [] := by
      simp [survivingFormats, mappedFormats]
    simp [projectFormats, if_neg hr, h1, h2]
  · intro formats
    simp [projectFormats, if_neg hr, totalFilteredOf, hsurv formats]

/-- Witness for C10: requesting `1000` on
`by_rating = {0:100, 1000:0, 2000:50}` yields `0` and discards the
format although the larger key `2000` holds `50` battles. -/
theorem zero_value_key_no_fallback_witness :
    ((1000 : Nat) ≠ 0) ∧ lookupRating exC10.by_rating 1000 = some 0 ∧
      lookupRating exC10.by_rating 2000 = some 50 ∧
      (resolveBattles exC10.by_rating 1000 = 0 ∧
        projectFormats [exC10] 1000 = [] ∧
        ∀ formats : List FormatRec,
          projectFormats (exC10 :: formats) 1000 = projectFormats formats 1000) :=
  ⟨by decide, by decide, by decide,
    zero_value_key_no_fallback exC10 1000 (by decide) (by decide)⟩

/-! ## Aliasing model of the filter branch (C6)

`renderTable` starts from `[...statsData.formats]` (a shallow copy of
the array, sharing the record objects), builds fresh records with the
spread in `.map`, and then mutates only those fresh records when the
`forEach` writes the recomputed percentages. To settle the
no-mutation claim we model the object heap explicitly: `store` is the
list of live record objects in allocation order and `ids` are the
indices the snapshot's `formats` array references. -/

/-- The store after the `.map` spread copies: one fresh record per
referenced id, allocated at the end of the store. -/
def heapMapped (store : List FormatRec) (ids : List Nat) (rating : Nat) :
    List FormatRec :=
  store ++ ids.map (fun i =>
    let f := store.getD i default
    { f with
        total_battles := resolveBattles f.by_rating rating,
        percentage := (0 : ℚ) })

/-- The ids of the fresh records that survive
`.filter(format => format.total_battles > 0)`. -/
def heapSurvivors (store : List FormatRec) (ids : List Nat) (rating : Nat) :
    List Nat :=
  ((List.range ids.length).map (fun j => store.length + j)).filter
    (fun i => 0 < ((heapMapped store ids rating).getD i default).total_battles)

/-- The survivors' battle total (`reduce`). -/
def heapTotal (store : List FormatRec) (ids : List Nat) (rating : Nat) : Nat :=
  ((heapSurvivors store ids rating).map
    (fun i => ((heapMapped store ids rating).getD i default).total_battles)).sum

/-- The filtered render over the explicit heap: at filter `0` nothing
is touched; otherwise the `forEach` percentage writes mutate the store
in place at each surviving id. Returns the post-render store and the
ids of the rendered rows. -/
def renderHeap (store : List FormatRec) (ids : List Nat) (rating : Nat) :
    List FormatRec × List Nat :=
  if rating = 0 then (store, ids)
  else
    ((heapSurvivors store ids rating).foldl
      (fun st i => st.set i
        { st.getD i default with
            percentage :=
              recomputePercentage (st.getD i default).total_battles
                (heapTotal store ids rating) })
      (heapMapped store ids rating),
     heapSurvivors store ids rating)

theorem heapSurvivors_ge (store : List FormatRec) (ids : List Nat) (rating : Nat) :
    ∀ j ∈ heapSurvivors store ids rating, store.length ≤ j := by
  intro j hj
  have hj' := (List.mem_filter.mp hj).1
  rcases List.mem_map.mp hj' with ⟨k, _, hk⟩
  omega

theorem foldl_set_getD_of_lt (g : List FormatRec → Nat → FormatRec) (n : Nat) :
    ∀ (l : List Nat) (st : List FormatRec), (∀ j ∈ l, n ≤ j) → ∀ i, i < n →
      (l.foldl (fun st j => st.set j (g st j)) st).getD i default =
        st.getD i default := by
  intro l
  induction l with
  | nil =>
    intro st _ i _
    rfl
  | cons j t ih =>
    intro st h i hi
    rw [List.foldl_cons,
      ih (st.set j (g st j)) (fun x hx => h x (List.mem_cons_of_mem j hx)) i hi]
    have hij : j ≠ i := by
      have := h j (List.mem_cons_self j t)
      omega
    simp [List.getD_eq_getElem?_getD, List.getElem?_set_ne hij]

/-- C6: the projection is deterministic, a filtered render leaves every
original record object in the store untouched (the percentage writes
only hit the freshly allocated copies), and an unfiltered render after
a filtered one therefore reads back the original records exactly. -/
theorem projection_pure_no_mutation (store : List FormatRec) (ids : List Nat)
    (rating : Nat) :
    renderHeap store ids rating = renderHeap store ids rating ∧
    (∀ i, i < store.length →
        (renderHeap store ids rating).fst.getD i default = store.getD i default) ∧
    (∀ i ∈ ids, i < store.length →
        (renderHeap (renderHeap store ids rating).fst ids 0).fst.getD i default =
          store.getD i default) := by
  have hpres : ∀ i, i < store.length →
      (renderHeap store ids rating).fst.getD i default = store.getD i default := by
    intro i hi
    by_cases hr : rating = 0
    · simp [renderHeap, hr]
    · rw [renderHeap, if_neg hr]
      have h1 := foldl_set_getD_of_lt
        (fun st i => { st.getD i default with
            percentage :=
              recomputePercentage (st.getD i default).total_battles
                (heapTotal store ids rating) })
        store.length (heapSurvivors store ids rating)
        (heapMapped store ids rating) (heapSurvivors_ge store ids rating) i hi
      rw [h1, heapMapped]
      simp [List.getD_eq_getElem?_getD, List.getElem?_append, hi]
  refine ⟨rfl, hpres, ?_⟩
  intro i hmem hi
  have h0 : renderHeap (renderHeap store ids rating).fst ids 0 =
      ((renderHeap store ids rating).fst, ids) := by
    simp [renderHeap]
  rw [h0]
  exact hpres i hi

/-- A live record for the C6 witness. -/
def exC6 : FormatRec :=
  { name := "gen9ru", format_name := "gen9ru", total_battles := 5,
    percentage := 100, by_rating := [(0, 5), (1000, 5)] }

/-- Witness for C6: a one-record store rendered at threshold `1000`
keeps its original record at index `0`. -/
theorem projection_pure_no_mutation_witness :
    (0 < ([exC6] : List FormatRec).length) ∧
      (renderHeap [exC6] [0] 1000).fst.getD 0 default =
        ([exC6] : List FormatRec).getD 0 default :=
  ⟨by decide, (projection_pure_no_mutation [exC6] [0] 1000).2.1 0 (by decide)⟩

/-! ## The load boundary (C8) -/

/-- The index resource (`index.json`). -/
structure IndexJson where
  periods : List String
  latest : String
deriving Repr, DecidableEq

/-- Outcome of one load attempt: either the loaded snapshot or the
inline error markup replacing the table body. -/
inductive LoadOutcome where
  | success (snapshot : StatsSnapshot) (period : String)
  | inlineError (message : String)
deriving Repr, DecidableEq

/-- The message of the inline error markup (formats.js lines 52–58). -/
def loadErrorMessage : String := "Failed to load data. Please try again later."

/-- The network/parse environment of one load attempt: one outcome per
resource, each consulted at most once by the straight-line `try` body
(the code has no retry loop). `indexFetchOk`/`dataFetchOk` model
`response.ok`; the `Option`s model whether `.json()` resolves. -/
structure LoadEnv where
  indexFetchOk : Bool
  indexParsed : Option IndexJson
  dataFetchOk : Bool
  dataParsed : Option StatsSnapshot

/-- `loadLatestData` (formats.js lines 15–60): the `try` body with each
awaited step's outcome read from the environment; whichever step fails
first throws into the `catch`, modelled as the inline-error outcome.
The second component counts the fetches issued before returning. -/
def loadLatestData (env : LoadEnv) : LoadOutcome × Nat :=
  if env.indexFetchOk = false then (LoadOutcome.inlineError loadErrorMessage, 1)
  else
    match env.indexParsed with
    | none => (LoadOutcome.inlineError loadErrorMessage, 1)
    | some index =>
      if env.dataFetchOk = false then (LoadOutcome.inlineError loadErrorMessage, 2)
      else
        match env.dataParsed with
        | none => (LoadOutcome.inlineError loadErrorMessage, 2)
        | some snapshot => (LoadOutcome.success snapshot index.latest, 2)

/-- C8: every load attempt with a failed fetch or unparseable response
yields exactly the single inline error outcome — never an escaping
exception; success occurs only when both fetches and both parses
succeeded; and at most two fetches are issued, so a failure is never
retried. -/
theorem load_boundary_errors (env : LoadEnv) :
    (¬(env.indexFetchOk = true ∧ env.indexParsed.isSome = true ∧
        env.dataFetchOk = true ∧ env.dataParsed.isSome = true) →
      (loadLatestData env).fst = LoadOutcome.inlineError loadErrorMessage) ∧
    (∀ snapshot period,
        (loadLatestData env).fst = LoadOutcome.success snapshot period →
        env.indexFetchOk = true ∧ env.indexParsed.isSome = true ∧
          env.dataFetchOk = true ∧ env.dataParsed.isSome = true) ∧
    (loadLatestData env).snd ≤ 2 := by
  rcases env with ⟨ifo, ip, dfo, dp⟩
  cases ifo <;> cases ip <;> cases dfo <;> cases dp <;>
    simp [loadLatestData]

/-- A load attempt whose first fetch already fails. -/
def exEnv : LoadEnv :=
  { indexFetchOk := false, indexParsed := none,
    dataFetchOk := false, dataParsed := none }

/-- Witness for C8: the failed first fetch surfaces the inline error. -/
theorem load_boundary_errors_witness :
    (¬(exEnv.indexFetchOk = true ∧ exEnv.indexParsed.isSome = true ∧
        exEnv.dataFetchOk = true ∧ exEnv.dataParsed.isSome = true)) ∧
      (loadLatestData exEnv).fst = LoadOutcome.inlineError loadErrorMessage :=
  ⟨by decide, (load_boundary_errors exEnv).1 (by decide)⟩
